import Mathlib

/-!
Verification of the colorwarm color-temperature engine (src/main.rs).

Shallow embedding conventions:
* Rust `i32` values are modelled as `Int` (all arithmetic in the embedded
  fragments stays far below the 32-bit bounds, and no wrapping arithmetic
  is exercised by any claim).
* Rust `f64`/`f32` values are modelled as `ℚ`; every floating-point value
  the claims touch is handled only through order comparisons, affine
  combinations of small decimals, and rounding, where the rational model
  is exact on the inputs considered.
* Rust integer division (`/` on `i32`, truncation toward zero) is
  `Int.tdiv`; a division whose divisor is zero panics in Rust, which is
  modelled by an explicit `Option` result at the one place (the
  `manage_brightness_cycle` kelvin computation) where the divisor can be
  zero.
* Rust `f32::round` / `f64 as u16` are modelled by `roundRust` /
  `rustAsU16` below, matching round-half-away-from-zero and the
  saturating truncating cast.
* The X11 side effects (gamma reads/writes) are modelled by counting the
  `randr_set_crtc_gamma` calls an invocation performs; the display is a
  list of screens, each screen being its number of CRTCs.
-/

/-! ### Constants (src/main.rs lines 30-43) -/

def TEMPERATURE_NORM : Int := 6500

def TEMPERATURE_NIGHT : Int := 4500

def TEMPERATURE_ZERO : Int := 700

def DELTA_MIN : Int := -1000000

def GAMMA_MULT : ℚ := 65535

def GAMMA_K0GR : ℚ := -1.47751309139817

def GAMMA_K1GR : ℚ := 0.28590164772055

def GAMMA_K0BR : ℚ := -4.38321650114872

def GAMMA_K1BR : ℚ := 0.6212158769447

def GAMMA_K0RB : ℚ := 1.75390204039018

def GAMMA_K1RB : ℚ := -0.1150805671482

def GAMMA_K0GB : ℚ := 1.49221604915144

def GAMMA_K1GB : ℚ := -0.07513509588921

/-! ### TempStatus and the pure numeric helpers -/

/-- `TempStatus` (src/main.rs lines 99-103): integer Kelvin temperature
plus a brightness scalar (an `f64` in the source, modelled as `ℚ`). -/
structure TempStatus where
  temp : Int
  brightness : ℚ
  deriving DecidableEq, Repr

/-- `double_trim` (src/main.rs lines 106-114): saturating clamp of `x`
into `[a, b]`. -/
def double_trim (x a b : ℚ) : ℚ :=
  if x < a then a
  else if x > b then b
  else x

/-- `bound_temp` (src/main.rs lines 291-310).  The `eprintln!` warnings
are diagnostics on stderr and are not modelled; only the corrected value
is. -/
def bound_temp (t : TempStatus) : TempStatus :=
  let temp :=
    if t.temp ≤ 0 then TEMPERATURE_NORM
    else if t.temp < TEMPERATURE_ZERO then TEMPERATURE_ZERO
    else t.temp
  let brightness :=
    if t.brightness < 0 then 0
    else if t.brightness > 1 then 1
    else t.brightness
  { temp := temp, brightness := brightness }

/-! ### Write-counting model of the one-shot (xsct) surface

`sct_for_screen` (src/main.rs lines 211-289) resolves the CRTC selector
exactly like this: when `icrtc >= 0 && (icrtc as usize) < ncrtc` it
touches the single CRTC `icrtc`, otherwise it falls back to iterating
over all `ncrtc` CRTCs of the screen; the loop performs one
`randr_set_crtc_gamma` call per visited CRTC.  `sct_writes` is the
number of set-gamma calls such an invocation performs on a screen with
`ncrtc` CRTCs. -/
def sct_writes (ncrtc : ℕ) (icrtc : Int) : ℕ :=
  if 0 ≤ icrtc ∧ icrtc < (ncrtc : Int) then 1 else ncrtc

/-- Total set-gamma calls performed by the screen loops of
`xsct_standalone` over the selected screen indices `sel`
(src/main.rs lines 1010-1074).  The display is `screens`, the list of
per-screen CRTC counts.  `toggle` runs its loop (one read, one write per
screen) before the absolute/delta dispatch; the estimate branch (no
temperature argument, non-delta) only reads; the delta branch validates
`temp == DELTA_MIN || brightness == DELTA_MIN` before writing anything.
`bound_temp` and the written values do not change the call count and are
omitted here. -/
def xsct_writes_for (screens : List ℕ) (sel : List ℕ) (icrtc : Int)
    (temp_arg : Int) (brightness_arg : ℚ) (fdelta toggle : Bool) : ℕ :=
  let toggleW :=
    if toggle then (sel.map fun s => sct_writes (screens.getD s 0) icrtc).sum
    else 0
  let brightness : ℚ :=
    if brightness_arg = (DELTA_MIN : ℚ) ∧ ¬fdelta then 1 else brightness_arg
  let mainW :=
    if temp_arg = DELTA_MIN ∧ ¬fdelta then 0
    else if ¬fdelta then (sel.map fun s => sct_writes (screens.getD s 0) icrtc).sum
    else if temp_arg = DELTA_MIN ∨ brightness = (DELTA_MIN : ℚ) then 0
    else (sel.map fun s => sct_writes (screens.getD s 0) icrtc).sum
  toggleW + mainW

/-- Set-gamma calls performed by one invocation of `xsct_standalone`
(src/main.rs lines 912-1077).  `screen_specified`/`icrtc` are the parsed
`-s`/`-c` arguments (`none` resp. `-1` when absent), `temp_arg` and
`brightness_arg` the parsed positionals (`DELTA_MIN` when absent).  The
source validates an explicit screen index against the number of screens
before entering any loop (lines 1000-1005) and returns without touching
any output when it is out of range; `--help` returns before connecting.
When no screen is specified the loops run over `0 ..= screens-1` (the X
server always reports at least one screen). -/
def xsct_writes (screens : List ℕ) (screen_specified : Option ℕ)
    (icrtc : Int) (temp_arg : Int) (brightness_arg : ℚ)
    (fhelp fdelta toggle : Bool) : ℕ :=
  if fhelp then 0
  else
    match screen_specified with
    | some s =>
        if screens.length ≤ s then 0
        else xsct_writes_for screens [s] icrtc temp_arg brightness_arg fdelta toggle
    | none =>
        xsct_writes_for screens (List.range screens.length) icrtc temp_arg
          brightness_arg fdelta toggle

/-! ### The day/night scheduler -/

/-- The target-Kelvin computation inlined in `manage_brightness_cycle`
(src/main.rs lines 819-843), as a function of the current local time in
minutes and the interpolated day window.  Rust `i32` division truncates
toward zero (`Int.tdiv`).  When the day branch is reached with
`half_day = 0` (which happens exactly when `sunset = sunrise + 1`) the
source divides by zero and panics, whichever of the morning/afternoon
branches runs; this is modelled by `none`.  The final
`kelvin.clamp(4500, 6500)` of the source is applied to the result. -/
def cycle_target_kelvin (current_minutes sunrise sunset : Int) : Option Int :=
  let kelvin :=
    if sunset ≤ current_minutes ∨ current_minutes < sunrise then
      some 4500
    else
      let day_length := sunset - sunrise
      if day_length = 0 then
        some 5500
      else
        let half_day := day_length.tdiv 2
        let midpoint := sunrise + half_day
        if half_day = 0 then none
        else if current_minutes ≤ midpoint then
          some (4500 + ((current_minutes - sunrise) * 2000).tdiv half_day)
        else
          some (6500 - ((current_minutes - midpoint) * 2000).tdiv half_day)
  kelvin.map fun k => min (max k 4500) 6500

/-! ### The monthly table and its interpolation -/

/-- Rust `f32::round` — round to the nearest integer, halves away from
zero — over the rational model. -/
def roundRust (x : ℚ) : Int :=
  if 0 ≤ x then ⌊x + 1/2⌋ else -⌊-x + 1/2⌋

/-- `DAYS_PER_MONTH` (src/main.rs line 26). -/
def DAYS_PER_MONTH : ℚ := 30

/-- `MonthlyTimes` (src/main.rs lines 55-58): per-month sunrise/sunset
minutes.  The source stores `[i32; 12]` arrays indexed 0-11; they are
modelled as total functions on `ℕ` (an out-of-bounds access would panic
in Rust; every access below is at an index `< 12`). -/
structure MonthlyTimes where
  sunrise : ℕ → Int
  sunset : ℕ → Int

/-- `MonthlyTimes::new_for_timezone` (src/main.rs lines 60-96),
parameterized directly by the longitude offset in minutes that
`get_longitude_offset` derives from the timezone string (that function
is a static lookup table; every one of its values is some fixed
integer, so the offset is universally quantified here). -/
def MonthlyTimes.new_for_timezone (longitude_offset : Int) : MonthlyTimes where
  sunrise := fun m =>
    match m with
    | 0 => 8 * 60 + 40 + longitude_offset
    | 1 => 7 * 60 + 57 + longitude_offset
    | 2 => 6 * 60 + 57 + longitude_offset
    | 3 => 6 * 60 + 49 + longitude_offset
    | 4 => 5 * 60 + 54 + longitude_offset
    | 5 => 5 * 60 + 29 + longitude_offset
    | 6 => 5 * 60 + 47 + longitude_offset
    | 7 => 6 * 60 + 31 + longitude_offset
    | 8 => 7 * 60 + 10 + longitude_offset
    | 9 => 8 * 60 + 6 + longitude_offset
    | 10 => 7 * 60 + 59 + longitude_offset
    | _ => 8 * 60 + 39 + longitude_offset
  sunset := fun m =>
    match m with
    | 0 => 17 * 60 + 5 + longitude_offset
    | 1 => 17 * 60 + 56 + longitude_offset
    | 2 => 18 * 60 + 46 + longitude_offset
    | 3 => 20 * 60 + 37 + longitude_offset
    | 4 => 21 * 60 + 24 + longitude_offset
    | 5 => 21 * 60 + 56 + longitude_offset
    | 6 => 21 * 60 + 48 + longitude_offset
    | 7 => 21 * 60 + 1 + longitude_offset
    | 8 => 19 * 60 + 55 + longitude_offset
    | 9 => 18 * 60 + 49 + longitude_offset
    | 10 => 16 * 60 + 54 + longitude_offset
    | _ => 16 * 60 + 36 + longitude_offset

/-- One linear-interpolation-and-round step of `get_smoothed_day_times`:
`(a as f32 + (b as f32 - a as f32) * ratio).round() as i32`. -/
def interpRound (a b : Int) (ratio : ℚ) : Int :=
  roundRust ((a : ℚ) + ((b : ℚ) - (a : ℚ)) * ratio)

/-- `get_smoothed_day_times` (src/main.rs lines 764-795).  `month` is
1-12 and `day` 1-31; the first half of a month interpolates from the
previous month's entry (December for January) with fraction
`(day + 15) / 30`, the second half interpolates toward the next month
(January for December) with fraction `(day - 15) / 30`. -/
def get_smoothed_day_times (t : MonthlyTimes) (month : ℕ) (day : Int) :
    Int × Int :=
  let month_index := month - 1
  let p : ℕ × ℕ × Int :=
    if day ≤ 15 then
      (if month_index = 0 then 11 else month_index - 1, month_index, day + 15)
    else
      (month_index, (month_index + 1) % 12, day - 15)
  let ratio : ℚ := (p.2.2 : ℚ) / DAYS_PER_MONTH
  (interpRound (t.sunrise p.1) (t.sunrise p.2.1) ratio,
   interpRound (t.sunset p.1) (t.sunset p.2.1) ratio)

/-! ### The gamma-ramp synthesis of `sct_for_screen` -/

/-- Rust `f64 as u16`: a saturating, truncating cast — negative values
go to 0, values at or above 65536 saturate to 65535 — over the rational
model. -/
def rustAsU16 (x : ℚ) : ℕ :=
  if x < 0 then 0 else min 65535 ⌊x⌋.toNat

/-- The per-channel gamma factors computed by `sct_for_screen`
(src/main.rs lines 225-247), as an `(r, g, b)` triple.  The source
feeds `g = ln(t - 700)` (warm branch) resp. `g = ln(t - 5800)` (cool
branch) into fixed affine maps clamped by `double_trim(·, 0.0, 1.0)`;
the natural logarithm is transcendental, so its value enters here as
the parameter `g` and the ramp-shape properties below are proved for
every possible value of that logarithm. -/
def sct_gamma_factors (temp : Int) (g : ℚ) : ℚ × ℚ × ℚ :=
  if temp < TEMPERATURE_NORM then
    if temp > TEMPERATURE_ZERO then
      (1, double_trim (GAMMA_K0GR + GAMMA_K1GR * g) 0 1,
        double_trim (GAMMA_K0BR + GAMMA_K1BR * g) 0 1)
    else (1, 0, 0)
  else
    (double_trim (GAMMA_K0RB + GAMMA_K1RB * g) 0 1,
      double_trim (GAMMA_K0GB + GAMMA_K1GB * g) 0 1, 1)

/-- One entry of the ramp loop of `sct_for_screen` (src/main.rs lines
279-284): `g = GAMMA_MULT * b * (i as f64) / (size as f64)` and
`channel[i] = (g * factor + 0.5) as u16`, where the brightness `b` has
already been trimmed into `[0, 1]` (line 226). -/
def sct_ramp_entry (b gamma : ℚ) (size i : ℕ) : ℕ :=
  rustAsU16 (GAMMA_MULT * b * (i : ℚ) / (size : ℚ) * gamma + 1/2)

/-- One full channel of the ramp written by `sct_for_screen` for a
screen whose gamma-ramp capacity is `size`. -/
def sct_channel_ramp (b gamma : ℚ) (size : ℕ) : List ℕ :=
  (List.range size).map (sct_ramp_entry b gamma size)

/-- `roundRust` is the identity on integers. -/
theorem roundRust_intCast (n : Int) : roundRust (n : ℚ) = n := by
  unfold roundRust
  split_ifs with h
  · rw [add_comm, Int.floor_add_int]
    norm_num
  · rw [show -(n : ℚ) + 1/2 = 1/2 + ((-n : Int) : ℚ) by push_cast; ring,
      Int.floor_add_int]
    norm_num

/-- `roundRust` moves its argument by at most `1/2`. -/
theorem roundRust_bounds (x : ℚ) :
    x - 1/2 ≤ (roundRust x : ℚ) ∧ (roundRust x : ℚ) ≤ x + 1/2 := by
  unfold roundRust
  split_ifs with h
  · have hle := Int.floor_le (x + 1/2)
    have hlt := Int.lt_floor_add_one (x + 1/2)
    constructor <;> [linarith; linarith]
  · have hle := Int.floor_le (-x + 1/2)
    have hlt := Int.lt_floor_add_one (-x + 1/2)
    push_cast
    constructor <;> [linarith; linarith]

/-- Interpolating with a ratio in `[0, 1]` between pairs that each keep
a gap of at least 2 keeps the rounded results strictly ordered. -/
theorem interpRound_lt_interpRound (a1 a2 b1 b2 : Int) (r : ℚ)
    (h0 : 0 ≤ r) (h1 : r ≤ 1) (g1 : a1 + 2 ≤ b1) (g2 : a2 + 2 ≤ b2) :
    interpRound a1 a2 r < interpRound b1 b2 r := by
  have g1' : (a1 : ℚ) + 2 ≤ (b1 : ℚ) := by exact_mod_cast g1
  have g2' : (a2 : ℚ) + 2 ≤ (b2 : ℚ) := by exact_mod_cast g2
  have e1 : (0 : ℚ) ≤ ((b1 : ℚ) - a1 - 2) * (1 - r) :=
    mul_nonneg (by linarith) (by linarith)
  have e2 : (0 : ℚ) ≤ ((b2 : ℚ) - a2 - 2) * r :=
    mul_nonneg (by linarith) h0
  have hgap : (a1 : ℚ) + ((a2 : ℚ) - a1) * r + 2 ≤
      (b1 : ℚ) + ((b2 : ℚ) - b1) * r := by nlinarith
  have hx := (roundRust_bounds ((a1 : ℚ) + ((a2 : ℚ) - (a1 : ℚ)) * r)).2
  have hy := (roundRust_bounds ((b1 : ℚ) + ((b2 : ℚ) - (b1 : ℚ)) * r)).1
  have hlt : (interpRound a1 a2 r : ℚ) < (interpRound b1 b2 r : ℚ) := by
    unfold interpRound
    linarith
  exact_mod_cast hlt

/-- Every month of the (timezone-shifted) table keeps sunset at least
two minutes after sunrise; the offset shifts both equally. -/
theorem table_gap (off : Int) (n : ℕ) (hn : n < 12) :
    (MonthlyTimes.new_for_timezone off).sunrise n + 2 ≤
    (MonthlyTimes.new_for_timezone off).sunset n := by
  interval_cases n <;> simp [MonthlyTimes.new_for_timezone] <;> omega

/-! ### Claim C5: the three corrections of `bound` -/

/-- C5: `bound_temp` resets a non-positive temperature to 6500, raises a
positive temperature below 700 to 700, leaves temperatures at or above
700 alone, and clamps brightness into `[0, 1]`; in particular
`bound({temp: -5, brightness: 1.5}) = {temp: 6500, brightness: 1.0}` and
`bound({temp: 100, brightness: -0.2}) = {temp: 700, brightness: 0.0}`. -/
theorem c5_bound_corrections (t : TempStatus) :
    (t.temp ≤ 0 → (bound_temp t).temp = 6500) ∧
    (0 < t.temp → t.temp < 700 → (bound_temp t).temp = 700) ∧
    (700 ≤ t.temp → (bound_temp t).temp = t.temp) ∧
    (t.brightness < 0 → (bound_temp t).brightness = 0) ∧
    (1 < t.brightness → (bound_temp t).brightness = 1) ∧
    (0 ≤ t.brightness → t.brightness ≤ 1 → (bound_temp t).brightness = t.brightness) ∧
    bound_temp ⟨-5, 3/2⟩ = ⟨6500, 1⟩ ∧
    bound_temp ⟨100, -(1/5)⟩ = ⟨700, 0⟩ := by
  refine ⟨?_, ?_, ?_, ?_, ?_, ?_, ?_, ?_⟩
  · intro h
    simp only [bound_temp, TEMPERATURE_NORM, TEMPERATURE_ZERO]
    rw [if_pos h]
  · intro h0 h7
    simp only [bound_temp, TEMPERATURE_NORM, TEMPERATURE_ZERO]
    rw [if_neg (by omega), if_pos h7]
  · intro h
    simp only [bound_temp, TEMPERATURE_NORM, TEMPERATURE_ZERO]
    rw [if_neg (by omega), if_neg (by omega)]
  · intro h
    simp only [bound_temp]
    rw [if_pos h]
  · intro h
    simp only [bound_temp]
    rw [if_neg (by linarith), if_pos h]
  · intro h0 h1
    simp only [bound_temp]
    rw [if_neg (by linarith), if_neg (by linarith)]
  · simp only [bound_temp, TEMPERATURE_NORM, TEMPERATURE_ZERO]
    norm_num
  · simp only [bound_temp, TEMPERATURE_NORM, TEMPERATURE_ZERO]
    norm_num

/-- Witness for C5 at concrete inputs. -/
theorem c5_bound_corrections_witness :
    (bound_temp ⟨-5, (3 : ℚ)/2⟩).temp = 6500 ∧
    (bound_temp ⟨100, -(1/5 : ℚ)⟩).temp = 700 ∧
    (bound_temp ⟨8000, (3 : ℚ)/2⟩).temp = 8000 ∧
    (bound_temp ⟨8000, (3 : ℚ)/2⟩).brightness = 1 ∧
    (bound_temp ⟨100, -(1/5 : ℚ)⟩).brightness = 0 ∧
    (bound_temp ⟨8000, (1 : ℚ)/2⟩).brightness = 1/2 :=
  ⟨(c5_bound_corrections ⟨-5, (3 : ℚ)/2⟩).1 (by norm_num),
   (c5_bound_corrections ⟨100, -(1/5 : ℚ)⟩).2.1 (by norm_num) (by norm_num),
   (c5_bound_corrections ⟨8000, (3 : ℚ)/2⟩).2.2.1 (by norm_num),
   (c5_bound_corrections ⟨8000, (3 : ℚ)/2⟩).2.2.2.2.1 (by norm_num),
   (c5_bound_corrections ⟨100, -(1/5 : ℚ)⟩).2.2.2.1 (by norm_num),
   (c5_bound_corrections ⟨8000, (1 : ℚ)/2⟩).2.2.2.2.2.1 (by norm_num) (by norm_num)⟩

/-! ### Claim C10: `bound` is idempotent -/

/-- C10: applying `bound_temp` twice yields the same result as applying
it once. -/
theorem c10_bound_idempotent (t : TempStatus) :
    bound_temp (bound_temp t) = bound_temp t := by
  simp only [bound_temp, TEMPERATURE_NORM, TEMPERATURE_ZERO]
  split_ifs <;> simp_all <;> first | omega | linarith

/-! ### Claim C1: selector validation on the one-shot surface -/

/-- C1 counterexample: on a display with one screen that has one CRTC,
requesting the explicit CRTC index 1 (which is `≥` the CRTC count 1) in
absolute mode does not reject the operation: one set-gamma call is still
performed (`sct_for_screen` treats an out-of-range CRTC index as "all
CRTCs").  The claim says zero set-gamma calls would occur. -/
theorem c1_crtc_counterexample :
    xsct_writes [1] none 1 4000 (DELTA_MIN : ℚ) false false false = 1 := by
  norm_num [xsct_writes, xsct_writes_for, sct_writes, DELTA_MIN, List.range_succ]

/-- C1 amended: an explicit *screen* index that is `≥` the reported
screen count is rejected before any loop runs, so zero set-gamma calls
are performed, for every mode; an explicit *CRTC* index that is out of
range is not rejected — `sct_for_screen` falls back to iterating over
all `ncrtc` CRTCs of the screen. -/
theorem c1_screen_validated (screens : List ℕ) (s : ℕ) (icrtc : Int)
    (temp_arg : Int) (brightness_arg : ℚ) (fhelp fdelta toggle : Bool)
    (ncrtc : ℕ) (ic : Int) :
    (screens.length ≤ s →
      xsct_writes screens (some s) icrtc temp_arg brightness_arg fhelp fdelta toggle = 0) ∧
    ((ncrtc : Int) ≤ ic → sct_writes ncrtc ic = ncrtc) := by
  constructor
  · intro h
    cases fhelp <;> simp [xsct_writes, h]
  · intro h
    simp only [sct_writes]
    rw [if_neg (by omega)]

/-- Witness for C1 at a concrete display. -/
theorem c1_screen_validated_witness :
    xsct_writes [2, 2] (some 5) (-1) 4000 1 false false false = 0 ∧
    sct_writes 2 7 = 2 :=
  ⟨(c1_screen_validated [2, 2] 5 (-1) 4000 1 false false false 2 7).1 (by norm_num),
   (c1_screen_validated [2, 2] 5 (-1) 4000 1 false false false 2 7).2 (by norm_num)⟩

/-! ### Claim C3: delta mode without both deltas -/

/-- C3 counterexample: when `--toggle` and `--delta` are both passed and
the deltas are missing (both positionals absent, i.e. the `DELTA_MIN`
sentinel), the toggle loop still performs its set-gamma call on each
selected screen before the delta validation rejects: on a one-screen,
one-CRTC display one write occurs, not zero. -/
theorem c3_toggle_counterexample :
    xsct_writes [1] none (-1) DELTA_MIN (DELTA_MIN : ℚ) false true true = 1 := by
  norm_num [xsct_writes, xsct_writes_for, sct_writes, DELTA_MIN, List.range_succ]

/-- C3 amended: in delta mode, when toggle mode is not also requested
and either delta is missing (parsed as the `DELTA_MIN` sentinel), the
invocation is rejected by the `ERROR! Temperature and brightness delta
must both be specified!` check and performs zero set-gamma calls. -/
theorem c3_incomplete_delta_rejected (screens : List ℕ)
    (screen_specified : Option ℕ) (icrtc : Int) (temp_arg : Int)
    (brightness_arg : ℚ) (fhelp : Bool)
    (h : temp_arg = DELTA_MIN ∨ brightness_arg = (DELTA_MIN : ℚ)) :
    xsct_writes screens screen_specified icrtc temp_arg brightness_arg fhelp true false = 0 := by
  have hfor : ∀ sel, xsct_writes_for screens sel icrtc temp_arg brightness_arg true false = 0 := by
    intro sel
    rcases h with h | h <;> simp [xsct_writes_for, h]
  cases fhelp <;> rcases screen_specified with _ | s <;>
    simp [xsct_writes, hfor]

/-- Witness for C3 at a concrete display. -/
theorem c3_incomplete_delta_rejected_witness :
    xsct_writes [1, 3] none (-1) 300 (DELTA_MIN : ℚ) false true false = 0 :=
  c3_incomplete_delta_rejected [1, 3] none (-1) 300 (DELTA_MIN : ℚ) false
    (Or.inr rfl)

/-! ### Claim C2: the degenerate day window -/

/-- C2 counterexample: with a degenerate window (`sunrise = sunset =
480`) at current minute 600 the computation returns the night value
4500, not the documented 5500 fallback: the guard
`current_minutes >= sunset || current_minutes < sunrise` is always true
when `sunrise = sunset`, so the 5500 branch is unreachable. -/
theorem c2_fallback_counterexample :
    cycle_target_kelvin 600 480 480 = some 4500 ∧
    cycle_target_kelvin 600 480 480 ≠ some 5500 := by
  constructor <;> decide

/-- C2 amended: for every current time, a degenerate day window
(`sunrise = sunset`) makes the computation take the night branch, so it
never divides by zero (no panic: the result is `some _`) and returns
4500, the night value — not the 5500 written in the dead fallback
branch. -/
theorem c2_degenerate_window (current_minutes sunrise : Int) :
    cycle_target_kelvin current_minutes sunrise sunrise = some 4500 := by
  have h : sunrise ≤ current_minutes ∨ current_minutes < sunrise :=
    le_or_lt sunrise current_minutes
  simp [cycle_target_kelvin, h]

/-! ### Claim C6: scheduling boundaries of the day window -/

/-- C6 counterexample: for the day window `sunrise = 600`,
`sunset = 601` (so `sunrise < sunset` and `half_day = 0`), at
`current_minutes = sunrise` the source divides by zero and panics
(modelled as `none`) instead of starting the morning ramp at the night
value as the claim states. -/
theorem c6_panic_counterexample :
    cycle_target_kelvin 600 600 601 = none := by
  decide

/-- C6 amended: for every day window with `sunrise < sunset` the
computation returns exactly 4500 at every minute outside the half-open
interval `[sunrise, sunset)` (including the minute before sunrise and
the sunset minute itself); when moreover `sunset - sunrise ≥ 2` (so that
`half_day ≥ 1`; for `sunset = sunrise + 1` the source panics with a
division by zero at the sunrise minute) the morning ramp starts at
`current_minutes = sunrise` with the night value 4500 and is
non-decreasing up to the midpoint. -/
theorem c6_boundaries (sr ss c c1 c2 : Int) :
    (sr < ss → (c < sr ∨ ss ≤ c) → cycle_target_kelvin c sr ss = some 4500) ∧
    (sr + 2 ≤ ss → cycle_target_kelvin sr sr ss = some 4500) ∧
    (sr + 2 ≤ ss → sr ≤ c1 → c1 ≤ c2 → c2 ≤ sr + (ss - sr).tdiv 2 →
      ∃ k1 k2, cycle_target_kelvin c1 sr ss = some k1 ∧
        cycle_target_kelvin c2 sr ss = some k2 ∧ k1 ≤ k2) := by
  refine ⟨?_, ?_, ?_⟩
  · intro _ hout
    have h : ss ≤ c ∨ c < sr := hout.symm
    simp [cycle_target_kelvin, h]
  · intro hgap
    have htd : (ss - sr).tdiv 2 = (ss - sr) / 2 :=
      Int.tdiv_eq_ediv (by omega) (by norm_num)
    have hhd1 : 1 ≤ (ss - sr).tdiv 2 := by
      rw [htd, Int.le_ediv_iff_mul_le (by norm_num)]
      omega
    have hcond : ¬(ss ≤ sr ∨ sr < sr) := by omega
    simp only [cycle_target_kelvin]
    rw [if_neg hcond, if_neg (show ¬(ss - sr = 0) by omega),
      if_neg (show ¬((ss - sr).tdiv 2 = 0) by omega),
      if_pos (show sr ≤ sr + (ss - sr).tdiv 2 by omega)]
    simp
  · intro hgap hc1 hc12 hc2
    have htd : (ss - sr).tdiv 2 = (ss - sr) / 2 :=
      Int.tdiv_eq_ediv (by omega) (by norm_num)
    have hhd1 : 1 ≤ (ss - sr).tdiv 2 := by
      rw [htd, Int.le_ediv_iff_mul_le (by norm_num)]
      omega
    have hmul : (ss - sr) / 2 * 2 ≤ ss - sr := Int.ediv_mul_le _ (by norm_num)
    have hmid : sr + (ss - sr).tdiv 2 < ss := by
      rw [htd]
      omega
    have hN1 : (0 : Int) ≤ (c1 - sr) * 2000 :=
      mul_nonneg (by omega) (by norm_num)
    have hN12 : (c1 - sr) * 2000 ≤ (c2 - sr) * 2000 :=
      mul_le_mul_of_nonneg_right (by omega) (by norm_num)
    have hdiv : ((c1 - sr) * 2000).tdiv ((ss - sr).tdiv 2) ≤
        ((c2 - sr) * 2000).tdiv ((ss - sr).tdiv 2) := by
      rw [Int.tdiv_eq_ediv hN1 (by omega),
        Int.tdiv_eq_ediv (le_trans hN1 hN12) (by omega)]
      exact Int.ediv_le_ediv (by omega) hN12
    refine ⟨min (max (4500 + ((c1 - sr) * 2000).tdiv ((ss - sr).tdiv 2)) 4500) 6500,
      min (max (4500 + ((c2 - sr) * 2000).tdiv ((ss - sr).tdiv 2)) 4500) 6500,
      ?_, ?_, min_le_min (max_le_max (by omega) le_rfl) le_rfl⟩
    · simp only [cycle_target_kelvin]
      rw [if_neg (show ¬(ss ≤ c1 ∨ c1 < sr) by omega),
        if_neg (show ¬(ss - sr = 0) by omega),
        if_neg (show ¬((ss - sr).tdiv 2 = 0) by omega),
        if_pos (show c1 ≤ sr + (ss - sr).tdiv 2 by omega)]
      rfl
    · simp only [cycle_target_kelvin]
      rw [if_neg (show ¬(ss ≤ c2 ∨ c2 < sr) by omega),
        if_neg (show ¬(ss - sr = 0) by omega),
        if_neg (show ¬((ss - sr).tdiv 2 = 0) by omega),
        if_pos hc2]
      rfl

/-- Witness for C6 at a concrete day window. -/
theorem c6_boundaries_witness :
    cycle_target_kelvin 300 480 1020 = some 4500 ∧
    cycle_target_kelvin 480 480 1020 = some 4500 ∧
    ∃ k1 k2, cycle_target_kelvin 500 480 1020 = some k1 ∧
      cycle_target_kelvin 600 480 1020 = some k2 ∧ k1 ≤ k2 :=
  ⟨(c6_boundaries 480 1020 300 500 600).1 (by norm_num) (Or.inl (by norm_num)),
   (c6_boundaries 480 1020 500 500 600).2.1 (by norm_num),
   (c6_boundaries 480 1020 300 500 600).2.2 (by norm_num) (by norm_num)
     (by norm_num) (by decide)⟩

/-! ### Claim C7: window interpolation boundary cases -/

/-- Interpolating with ratio 1 lands exactly on the second entry. -/
theorem interpRound_one (a b : Int) : interpRound a b 1 = b := by
  unfold interpRound
  rw [show (a : ℚ) + ((b : ℚ) - a) * 1 = ((b : Int) : ℚ) by ring]
  exact roundRust_intCast b

/-- C7: for any monthly table, January 15 (`month = 1, day = 15`) yields
the raw January entry exactly (the interpolation ratio is `30/30 = 1`),
and January 1 interpolates between the December and January entries with
fraction `16/30`, December being the previous month at the January
wraparound. -/
theorem c7_january_boundaries (t : MonthlyTimes) :
    get_smoothed_day_times t 1 15 = (t.sunrise 0, t.sunset 0) ∧
    get_smoothed_day_times t 1 1 =
      (interpRound (t.sunrise 11) (t.sunrise 0) (16/30),
       interpRound (t.sunset 11) (t.sunset 0) (16/30)) := by
  constructor
  · show (interpRound (t.sunrise 11) (t.sunrise 0) (((15 + 15 : Int) : ℚ) / DAYS_PER_MONTH),
        interpRound (t.sunset 11) (t.sunset 0) (((15 + 15 : Int) : ℚ) / DAYS_PER_MONTH)) =
        (t.sunrise 0, t.sunset 0)
    rw [show ((15 + 15 : Int) : ℚ) / DAYS_PER_MONTH = 1 by norm_num [DAYS_PER_MONTH]]
    rw [interpRound_one, interpRound_one]
  · show (interpRound (t.sunrise 11) (t.sunrise 0) (((1 + 15 : Int) : ℚ) / DAYS_PER_MONTH),
        interpRound (t.sunset 11) (t.sunset 0) (((1 + 15 : Int) : ℚ) / DAYS_PER_MONTH)) = _
    rw [show ((1 + 15 : Int) : ℚ) / DAYS_PER_MONTH = 16/30 by norm_num [DAYS_PER_MONTH]]

/-! ### Claim C8: the interpolated window never wraps across midnight -/

/-- C8: for every longitude offset the table can be built with, every
month 1-12 and every day 1-31, the interpolated day window satisfies
`sunrise < sunset`. -/
theorem c8_day_window_no_wrap (off : Int) (month : ℕ) (day : Int)
    (h1 : 1 ≤ month) (h2 : month ≤ 12) (h3 : 1 ≤ day) (h4 : day ≤ 31) :
    (get_smoothed_day_times (MonthlyTimes.new_for_timezone off) month day).1 <
      (get_smoothed_day_times (MonthlyTimes.new_for_timezone off) month day).2 := by
  unfold get_smoothed_day_times
  by_cases hd : day ≤ 15
  · simp only [if_pos hd]
    apply interpRound_lt_interpRound
    · apply div_nonneg _ (by norm_num [DAYS_PER_MONTH])
      exact_mod_cast (by omega : (0 : Int) ≤ day + 15)
    · rw [div_le_one (by norm_num [DAYS_PER_MONTH])]
      show ((day + 15 : Int) : ℚ) ≤ DAYS_PER_MONTH
      rw [show DAYS_PER_MONTH = ((30 : Int) : ℚ) by norm_num [DAYS_PER_MONTH]]
      exact_mod_cast (by omega : day + 15 ≤ (30 : Int))
    · exact table_gap off _ (by split_ifs <;> omega)
    · exact table_gap off _ (by omega)
  · simp only [if_neg hd]
    apply interpRound_lt_interpRound
    · apply div_nonneg _ (by norm_num [DAYS_PER_MONTH])
      exact_mod_cast (by omega : (0 : Int) ≤ day - 15)
    · rw [div_le_one (by norm_num [DAYS_PER_MONTH])]
      show ((day - 15 : Int) : ℚ) ≤ DAYS_PER_MONTH
      rw [show DAYS_PER_MONTH = ((30 : Int) : ℚ) by norm_num [DAYS_PER_MONTH]]
      exact_mod_cast (by omega : day - 15 ≤ (30 : Int))
    · exact table_gap off _ (by omega)
    · exact table_gap off _ (Nat.mod_lt _ (by norm_num))

/-- Witness for C8 at a concrete date and offset. -/
theorem c8_day_window_no_wrap_witness :
    (get_smoothed_day_times (MonthlyTimes.new_for_timezone 0) 6 10).1 <
      (get_smoothed_day_times (MonthlyTimes.new_for_timezone 0) 6 10).2 :=
  c8_day_window_no_wrap 0 6 10 (by norm_num) (by norm_num) (by norm_num)
    (by norm_num)

/-! ### Claim C9: shape of the synthesized ramps -/

/-- The saturating cast is monotone. -/
theorem rustAsU16_mono {x y : ℚ} (h : x ≤ y) : rustAsU16 x ≤ rustAsU16 y := by
  unfold rustAsU16
  split_ifs with hx hy hy
  · exact le_rfl
  · exact Nat.zero_le _
  · exact absurd (lt_of_le_of_lt h hy) (not_lt.mpr (not_lt.mp hx))
  · exact min_le_min le_rfl (Int.toNat_le_toNat (Int.floor_le_floor h))

/-- The saturating cast never exceeds the 16-bit maximum. -/
theorem rustAsU16_le (x : ℚ) : rustAsU16 x ≤ 65535 := by
  unfold rustAsU16
  split_ifs
  · exact Nat.zero_le _
  · exact min_le_left _ _

/-- `double_trim x 0 1` lands in `[0, 1]`. -/
theorem double_trim_mem (x : ℚ) :
    0 ≤ double_trim x 0 1 ∧ double_trim x 0 1 ≤ 1 := by
  unfold double_trim
  split_ifs <;> constructor <;> linarith

/-- Every component of the factor triple lies in `[0, 1]`, whatever the
value of the logarithm. -/
theorem sct_gamma_factors_range (temp : Int) (g : ℚ) :
    (0 ≤ (sct_gamma_factors temp g).1 ∧ (sct_gamma_factors temp g).1 ≤ 1) ∧
    (0 ≤ (sct_gamma_factors temp g).2.1 ∧ (sct_gamma_factors temp g).2.1 ≤ 1) ∧
    (0 ≤ (sct_gamma_factors temp g).2.2 ∧ (sct_gamma_factors temp g).2.2 ≤ 1) := by
  unfold sct_gamma_factors
  split_ifs <;>
    exact ⟨by simp [double_trim_mem], by simp [double_trim_mem],
      by simp [double_trim_mem]⟩

/-- Ramp entries are monotone in the index for nonnegative brightness
and factor. -/
theorem sct_ramp_entry_mono (b gamma : ℚ) (hb : 0 ≤ b) (hg : 0 ≤ gamma)
    (size : ℕ) {i j : ℕ} (hij : i ≤ j) :
    sct_ramp_entry b gamma size i ≤ sct_ramp_entry b gamma size j := by
  apply rustAsU16_mono
  have hnum : GAMMA_MULT * b * (i : ℚ) ≤ GAMMA_MULT * b * (j : ℚ) := by
    apply mul_le_mul_of_nonneg_left (Nat.cast_le.mpr hij)
    exact mul_nonneg (by norm_num [GAMMA_MULT]) hb
  have hdiv : GAMMA_MULT * b * (i : ℚ) / (size : ℚ) ≤
      GAMMA_MULT * b * (j : ℚ) / (size : ℚ) := by
    rcases Nat.eq_zero_or_pos size with hs | hs
    · simp [hs]
    · have hs' : (0 : ℚ) < (size : ℚ) := by exact_mod_cast hs
      exact (div_le_div_iff_of_pos_right hs').mpr hnum
  have := mul_le_mul_of_nonneg_right hdiv hg
  linarith

/-- Ramp entry 0 is 0. -/
theorem sct_ramp_entry_zero (b gamma : ℚ) (size : ℕ) :
    sct_ramp_entry b gamma size 0 = 0 := by
  unfold sct_ramp_entry
  rw [show GAMMA_MULT * b * ((0 : ℕ) : ℚ) / (size : ℚ) * gamma + 1/2 = 1/2 by
    push_cast; ring]
  unfold rustAsU16
  norm_num

/-- C9: for every temperature (through every possible value `g` of the
logarithm the source computes), every raw brightness and every ramp
size, each of the three channels of the synthesized ramp is
non-decreasing in the index, starts at 0, and every entry fits in
(is capped at) the device's unsigned 16-bit maximum. -/
theorem c9_ramp_monotone_bounded (temp : Int) (g bRaw : ℚ) (size i j : ℕ)
    (hij : i ≤ j) :
    (sct_ramp_entry (double_trim bRaw 0 1) (sct_gamma_factors temp g).1 size i ≤
        sct_ramp_entry (double_trim bRaw 0 1) (sct_gamma_factors temp g).1 size j ∧
      sct_ramp_entry (double_trim bRaw 0 1) (sct_gamma_factors temp g).2.1 size i ≤
        sct_ramp_entry (double_trim bRaw 0 1) (sct_gamma_factors temp g).2.1 size j ∧
      sct_ramp_entry (double_trim bRaw 0 1) (sct_gamma_factors temp g).2.2 size i ≤
        sct_ramp_entry (double_trim bRaw 0 1) (sct_gamma_factors temp g).2.2 size j) ∧
    (sct_ramp_entry (double_trim bRaw 0 1) (sct_gamma_factors temp g).1 size 0 = 0 ∧
      sct_ramp_entry (double_trim bRaw 0 1) (sct_gamma_factors temp g).2.1 size 0 = 0 ∧
      sct_ramp_entry (double_trim bRaw 0 1) (sct_gamma_factors temp g).2.2 size 0 = 0) ∧
    (sct_ramp_entry (double_trim bRaw 0 1) (sct_gamma_factors temp g).1 size i ≤ 65535 ∧
      sct_ramp_entry (double_trim bRaw 0 1) (sct_gamma_factors temp g).2.1 size i ≤ 65535 ∧
      sct_ramp_entry (double_trim bRaw 0 1) (sct_gamma_factors temp g).2.2 size i ≤ 65535) := by
  have hb := double_trim_mem bRaw
  have hf := sct_gamma_factors_range temp g
  refine ⟨⟨?_, ?_, ?_⟩, ⟨?_, ?_, ?_⟩, ⟨?_, ?_, ?_⟩⟩
  · exact sct_ramp_entry_mono _ _ hb.1 hf.1.1 size hij
  · exact sct_ramp_entry_mono _ _ hb.1 hf.2.1.1 size hij
  · exact sct_ramp_entry_mono _ _ hb.1 hf.2.2.1 size hij
  · exact sct_ramp_entry_zero _ _ _
  · exact sct_ramp_entry_zero _ _ _
  · exact sct_ramp_entry_zero _ _ _
  · exact rustAsU16_le _
  · exact rustAsU16_le _
  · exact rustAsU16_le _

/-- Witness for C9 at a concrete warm temperature and ramp size. -/
theorem c9_ramp_monotone_bounded_witness :
    sct_ramp_entry (double_trim 1 0 1) (sct_gamma_factors 500 0).1 4 1 ≤
      sct_ramp_entry (double_trim 1 0 1) (sct_gamma_factors 500 0).1 4 2 ∧
    sct_ramp_entry (double_trim 1 0 1) (sct_gamma_factors 500 0).2.2 4 0 = 0 ∧
    sct_ramp_entry (double_trim 1 0 1) (sct_gamma_factors 500 0).1 4 1 ≤ 65535 :=
  ⟨(c9_ramp_monotone_bounded 500 0 1 4 1 2 (by norm_num)).1.1,
   (c9_ramp_monotone_bounded 500 0 1 4 1 2 (by norm_num)).2.1.2.2,
   (c9_ramp_monotone_bounded 500 0 1 4 1 2 (by norm_num)).2.2.1⟩
